import Mathlib

/-!
Shallow embedding of `sysconfig_windows.py` (a one-shot system-snapshot
generator).  Python values appearing in the snapshot are modelled by `Value`;
each external call the script makes (platform identification, psutil metrics,
environment access, clock, file writing) is modelled as an `Except String`
result supplied by a `World`, where `.error e` stands for the call raising an
exception whose string form is `e`.  A `try/except` block in the source
corresponds to a `match` that converts `.error e` into a string `Value`;
code outside any `try` lets the error propagate in the `Except` monad.
-/

/-- Model of a Python value as it appears in the gathered configuration:
`vnull` is Python `None`, `vnat` an integer, `vrat` a float (modelled
exactly as a rational), `vstr` a string, `vlist` a list, and `vdict` an
insertion-ordered dict. -/
inductive Value where
  | vnull : Value
  | vnat : Nat → Value
  | vrat : ℚ → Value
  | vstr : String → Value
  | vlist : List Value → Value
  | vdict : List (String × Value) → Value

/-- Result of `psutil.cpu_freq()` when frequency data is reported:
the `max`, `min` and `current` fields, in MHz. -/
structure CpuFreq where
  max : ℚ
  min : ℚ
  current : ℚ

/-- Result of `psutil.virtual_memory()`: byte counts and a used percentage. -/
structure VirtualMemory where
  total : Nat
  available : Nat
  used : Nat
  percent : ℚ

/-- One element of `psutil.disk_partitions()`. -/
structure Partition where
  device : String
  mountpoint : String
  fstype : String
  opts : String

/-- Result of `psutil.disk_usage(mountpoint)`: byte counts and a percentage. -/
structure DiskUsage where
  total : Nat
  used : Nat
  free : Nat
  percent : ℚ

/-- One address record from `psutil.net_if_addrs()`; `netmask`, `broadcast`
and `ptp` may be Python `None`. -/
structure Addr where
  family : String
  address : String
  netmask : Option String
  broadcast : Option String
  ptp : Option String

/-- The psutil module's behaviour on this run: each field models one call the
script makes, either returning a value (`.ok`) or raising (`.error`).
`cpuFreq` returns `none` when the platform exposes no frequency information
(Python `None`, falsy); `cpuCountPhysical`/`cpuCountLogical` model
`psutil.cpu_count(logical=False/True)`, which may return `None`. -/
structure PsutilWorld where
  cpuFreq : Except String (Option CpuFreq)
  cpuCountPhysical : Except String (Option Nat)
  cpuCountLogical : Except String (Option Nat)
  cpuPercent : Except String ℚ
  virtualMemory : Except String VirtualMemory
  diskPartitions : Except String (List Partition)
  diskUsage : String → Except String DiskUsage
  netIfAddrs : Except String (List (String × List Addr))

/-- The ambient system for one run of the script: the five `platform` calls,
the optional psutil module (`none` models `import psutil` failing, i.e. the
module not being available), `os.environ`, and
`datetime.datetime.now().isoformat()`. -/
structure World where
  platformSystem : Except String String
  platformRelease : Except String String
  platformVersion : Except String String
  platformMachine : Except String String
  platformProcessor : Except String String
  psutil : Option PsutilWorld
  environ : Except String (List (String × String))
  nowIso : Except String String

/-- Python's `round` to an integer: round half to even (banker's rounding). -/
def roundHalfEven (q : ℚ) : ℤ :=
  let f : ℤ := ⌊q⌋
  let r : ℚ := q - (f : ℚ)
  if r < 1/2 then f
  else if 1/2 < r then f + 1
  else if f % 2 = 0 then f else f + 1

/-- Python's `round(q, 2)`: round to 2 decimal places, ties to even. -/
def pyRound2 (q : ℚ) : ℚ := ((roundHalfEven (q * 100) : ℚ)) / 100

/-- The source expression `round(b / (1024 ** 2), 2)`: convert a byte count
to megabytes with 2-decimal rounding. -/
def bytesToMb (b : Nat) : ℚ := pyRound2 ((b : ℚ) / (1024 ^ 2))

/-- `None` integer to `Value` (as for `psutil.cpu_count`). -/
def optNatVal : Option Nat → Value
  | none => Value.vnull
  | some n => Value.vnat n

/-- Optional string to `Value` (as for address netmask/broadcast/ptp). -/
def optStrVal : Option String → Value
  | none => Value.vnull
  | some s => Value.vstr s

/-- Body of the CPU-information `try` block (source lines 62-71): fetch
`psutil.cpu_freq()`, then build the dict, whose value expressions call
`psutil.cpu_count(logical=False)`, `psutil.cpu_count(logical=True)` and
`psutil.cpu_percent(interval=1)` in that order; the three frequency entries
are `cpu_freq.max if cpu_freq else None` and likewise for `min`/`current`.
Any raise escapes as `.error`. -/
def cpu_collect (p : PsutilWorld) : Except String (List (String × Value)) :=
  match p.cpuFreq with
  | .error e => .error e
  | .ok cpu_freq =>
  match p.cpuCountPhysical with
  | .error e => .error e
  | .ok phys =>
  match p.cpuCountLogical with
  | .error e => .error e
  | .ok logical =>
  match p.cpuPercent with
  | .error e => .error e
  | .ok pct =>
  .ok [("physical_cores", optNatVal phys),
       ("total_cores", optNatVal logical),
       ("max_frequency_mhz",
         match cpu_freq with | some f => Value.vrat f.max | none => Value.vnull),
       ("min_frequency_mhz",
         match cpu_freq with | some f => Value.vrat f.min | none => Value.vnull),
       ("current_frequency_mhz",
         match cpu_freq with | some f => Value.vrat f.current | none => Value.vnull),
       ("cpu_usage_percent", Value.vrat pct)]

/-- The `config['cpu']` assignment (source lines 61-75): marker string when
psutil is absent, error string when the `try` body raises, dict otherwise. -/
def cpu_section (ps : Option PsutilWorld) : Value :=
  match ps with
  | none => Value.vstr "psutil module not available"
  | some p =>
    match cpu_collect p with
    | .ok fields => Value.vdict fields
    | .error e => Value.vstr ("Error collecting CPU info: " ++ e)

/-- Body of the memory-information `try` block (source lines 79-86). -/
def memory_collect (p : PsutilWorld) : Except String (List (String × Value)) :=
  match p.virtualMemory with
  | .error e => .error e
  | .ok virtual_mem =>
  .ok [("total_mb", Value.vrat (bytesToMb virtual_mem.total)),
       ("available_mb", Value.vrat (bytesToMb virtual_mem.available)),
       ("used_mb", Value.vrat (bytesToMb virtual_mem.used)),
       ("percentage", Value.vrat virtual_mem.percent)]

/-- The `config['memory']` assignment (source lines 78-90). -/
def memory_section (ps : Option PsutilWorld) : Value :=
  match ps with
  | none => Value.vstr "psutil module not available"
  | some p =>
    match memory_collect p with
    | .ok fields => Value.vdict fields
    | .error e => Value.vstr ("Error collecting memory info: " ++ e)

/-- One iteration of the partition loop (source lines 97-115): the inner
`try` reads `psutil.disk_usage(partition.mountpoint)` and builds the full
record; on a raise it builds the reduced `{device, error}` record instead. -/
def partition_record (usage : String → Except String DiskUsage)
    (partition : Partition) : Value :=
  match usage partition.mountpoint with
  | .ok u =>
    Value.vdict [("device", Value.vstr partition.device),
                 ("mountpoint", Value.vstr partition.mountpoint),
                 ("fstype", Value.vstr partition.fstype),
                 ("opts", Value.vstr partition.opts),
                 ("total_mb", Value.vrat (bytesToMb u.total)),
                 ("used_mb", Value.vrat (bytesToMb u.used)),
                 ("free_mb", Value.vrat (bytesToMb u.free)),
                 ("percentage", Value.vrat u.percent)]
  | .error e =>
    Value.vdict [("device", Value.vstr partition.device),
                 ("error", Value.vstr e)]

/-- Body of the disk-information `try` block (source lines 94-116):
enumerate partitions and collect one record per partition, in order. -/
def disk_collect (p : PsutilWorld) : Except String (List Value) :=
  match p.diskPartitions with
  | .error e => .error e
  | .ok partitions => .ok (partitions.map (partition_record p.diskUsage))

/-- The `config['disk']` assignment (source lines 93-120). -/
def disk_section (ps : Option PsutilWorld) : Value :=
  match ps with
  | none => Value.vstr "psutil module not available"
  | some p =>
    match disk_collect p with
    | .ok disk_info => Value.vlist disk_info
    | .error e => Value.vstr ("Error collecting disk info: " ++ e)

/-- One address record of the network section (source lines 130-136). -/
def addr_record (a : Addr) : Value :=
  Value.vdict [("family", Value.vstr a.family),
               ("address", Value.vstr a.address),
               ("netmask", optStrVal a.netmask),
               ("broadcast", optStrVal a.broadcast),
               ("ptp", optStrVal a.ptp)]

/-- Body of the network-information `try` block (source lines 124-138). -/
def network_collect (p : PsutilWorld) :
    Except String (List (String × Value)) :=
  match p.netIfAddrs with
  | .error e => .error e
  | .ok interfaces =>
    .ok (interfaces.map
      (fun ia => (ia.1, Value.vlist (ia.2.map addr_record))))

/-- The `config['network']` assignment (source lines 123-142). -/
def network_section (ps : Option PsutilWorld) : Value :=
  match ps with
  | none => Value.vstr "psutil module not available"
  | some p =>
    match network_collect p with
    | .ok net_info => Value.vdict net_info
    | .error e => Value.vstr ("Error collecting network info: " ++ e)

/-- The `config['environment']` assignment (source lines 145-148):
`dict(os.environ)` inside its own `try`. -/
def environment_section (env : Except String (List (String × String))) :
    Value :=
  match env with
  | .ok environ => Value.vdict (environ.map (fun kv => (kv.1, Value.vstr kv.2)))
  | .error e => Value.vstr ("Error collecting environment variables: " ++ e)

/-- `SystemConfigCollector.gather_info` (source lines 42-153).  The five
`platform` calls of the OS section (lines 52-58) and the
`datetime.datetime.now().isoformat()` call (line 151) stand outside every
`try` block, so their faults propagate to the caller; the cpu, memory, disk,
network and environment sections each contain their own faults. -/
def gather_info (w : World) : Except String (List (String × Value)) :=
  match w.platformSystem with
  | .error e => .error e
  | .ok system =>
  match w.platformRelease with
  | .error e => .error e
  | .ok release =>
  match w.platformVersion with
  | .error e => .error e
  | .ok version =>
  match w.platformMachine with
  | .error e => .error e
  | .ok machine =>
  match w.platformProcessor with
  | .error e => .error e
  | .ok processor =>
  match w.nowIso with
  | .error e => .error e
  | .ok timestamp =>
  .ok [("os", Value.vdict [("system", Value.vstr system),
                           ("release", Value.vstr release),
                           ("version", Value.vstr version),
                           ("machine", Value.vstr machine),
                           ("processor", Value.vstr processor)]),
       ("cpu", cpu_section w.psutil),
       ("memory", memory_section w.psutil),
       ("disk", disk_section w.psutil),
       ("network", network_section w.psutil),
       ("environment", environment_section w.environ),
       ("timestamp", Value.vstr timestamp)]

/-- The writing environment: `openFile p` models `open(p, 'w')` (creating or
truncating the file at `p`), `yamlDump cfg p` models
`yaml.dump(config, file, default_flow_style=False, sort_keys=False)` on the
handle opened at `p`; either may raise. -/
structure WriteWorld where
  openFile : String → Except String Unit
  yamlDump : List (String × Value) → String → Except String Unit

/-- `SystemConfigCollector.write_config` (source lines 155-168), observed
through what it prints and which paths it opens for writing.  The whole body
sits in one `try/except Exception` that prints a failure message, so the
function never raises; the file at `file_path` is created/truncated exactly
when the `open` succeeds. -/
def write_config (ww : WriteWorld) (config : List (String × Value))
    (file_path : String) : List String × List String :=
  match ww.openFile file_path with
  | .error e => (["Failed to write configuration file: " ++ e], [])
  | .ok _ =>
    match ww.yamlDump config file_path with
    | .error e => (["Failed to write configuration file: " ++ e], [file_path])
    | .ok _ =>
      (["Configuration file successfully saved to " ++ file_path], [file_path])

/-- Outcome of one process run: the exit status, everything printed to
standard output, and the paths opened for writing. -/
structure RunResult where
  exitCode : Nat
  printed : List String
  written : List String

/-- The output-path resolution in `main` (source lines 178-180):
`output_file = "system_config.yaml"`, overwritten by `sys.argv[1]` when
`len(sys.argv) > 1`.  `argv` is the full `sys.argv`, program name included. -/
def resolve_output_file (argv : List String) : String :=
  if argv.length > 1 then argv.getD 1 "system_config.yaml"
  else "system_config.yaml"

/-- `main` (source lines 170-184): gather, resolve the output path, write.
Its `try/except` prints `An error occurred: ...` and exits 1 when an
exception escapes `gather_info`; `write_config` never raises, so a write
fault still ends with exit status 0. -/
def main_run (w : World) (ww : WriteWorld) (argv : List String) : RunResult :=
  match gather_info w with
  | .error e => ⟨1, ["An error occurred: " ++ e], []⟩
  | .ok config_data =>
    let output_file := resolve_output_file argv
    let r := write_config ww config_data output_file
    ⟨0, r.1, r.2⟩

/-- The whole process including the import guard (source lines 26-30): when
PyYAML cannot be imported the script prints the install hint and calls
`sys.exit(1)` before any collection; otherwise it runs `main`. -/
def program_run (yamlAvailable : Bool) (w : World) (ww : WriteWorld)
    (argv : List String) : RunResult :=
  if yamlAvailable then main_run w ww argv
  else ⟨1, ["PyYAML is not installed. Please install it using \x27pip install PyYAML\x27"], []⟩

/-- The seven top-level keys of the snapshot, in collection order. -/
def sevenKeys : List String :=
  ["os", "cpu", "memory", "disk", "network", "environment", "timestamp"]

theorem cpu_section_ne_null (ps : Option PsutilWorld) :
    cpu_section ps ≠ Value.vnull := by
  unfold cpu_section
  rcases ps with _ | p
  · simp
  · rcases h : cpu_collect p with e | fields <;> simp [h]

theorem memory_section_ne_null (ps : Option PsutilWorld) :
    memory_section ps ≠ Value.vnull := by
  unfold memory_section
  rcases ps with _ | p
  · simp
  · rcases h : memory_collect p with e | fields <;> simp [h]

theorem disk_section_ne_null (ps : Option PsutilWorld) :
    disk_section ps ≠ Value.vnull := by
  unfold disk_section
  rcases ps with _ | p
  · simp
  · rcases h : disk_collect p with e | info <;> simp [h]

theorem network_section_ne_null (ps : Option PsutilWorld) :
    network_section ps ≠ Value.vnull := by
  unfold network_section
  rcases ps with _ | p
  · simp
  · rcases h : network_collect p with e | info <;> simp [h]

theorem environment_section_ne_null
    (env : Except String (List (String × String))) :
    environment_section env ≠ Value.vnull := by
  unfold environment_section
  rcases env with e | environ <;> simp

/-- C1: whenever `gather_info` returns a snapshot, that snapshot has exactly
the seven top-level keys os, cpu, memory, disk, network, environment,
timestamp, in that fixed order, and no key is bound to Python `None`. -/
theorem gather_info_seven_keys (w : World) (cfg : List (String × Value))
    (h : gather_info w = .ok cfg) :
    cfg.map Prod.fst = sevenKeys ∧ ∀ kv ∈ cfg, kv.2 ≠ Value.vnull := by
  unfold gather_info at h
  rcases hs : w.platformSystem with e | system <;> rw [hs] at h
  · exact Except.noConfusion h
  rcases hr : w.platformRelease with e | release <;> rw [hr] at h
  · exact Except.noConfusion h
  rcases hv : w.platformVersion with e | version <;> rw [hv] at h
  · exact Except.noConfusion h
  rcases hm : w.platformMachine with e | machine <;> rw [hm] at h
  · exact Except.noConfusion h
  rcases hp : w.platformProcessor with e | processor <;> rw [hp] at h
  · exact Except.noConfusion h
  rcases ht : w.nowIso with e | timestamp <;> rw [ht] at h
  · exact Except.noConfusion h
  have hcfg := Except.ok.inj h
  subst hcfg
  refine ⟨by simp [sevenKeys], ?_⟩
  intro kv hkv
  simp only [List.mem_cons, List.not_mem_nil, or_false] at hkv
  rcases hkv with rfl | rfl | rfl | rfl | rfl | rfl | rfl
  · simp
  · exact cpu_section_ne_null w.psutil
  · exact memory_section_ne_null w.psutil
  · exact disk_section_ne_null w.psutil
  · exact network_section_ne_null w.psutil
  · exact environment_section_ne_null w.environ
  · simp

/-- A concrete run on a host without psutil, where every remaining data
source succeeds. -/
def noPsutilWorld : World :=
  { platformSystem := .ok "Windows"
    platformRelease := .ok "11"
    platformVersion := .ok "10.0.22631"
    platformMachine := .ok "AMD64"
    platformProcessor := .ok "Intel64 Family 6 Model 154"
    psutil := none
    environ := .ok [("PATH", "C:"), ("USERNAME", "cbw")]
    nowIso := .ok "2025-02-17T12:00:00" }

/-- The snapshot `gather_info` produces on `noPsutilWorld`. -/
def noPsutilConfig : List (String × Value) :=
  [("os", Value.vdict [("system", Value.vstr "Windows"),
                       ("release", Value.vstr "11"),
                       ("version", Value.vstr "10.0.22631"),
                       ("machine", Value.vstr "AMD64"),
                       ("processor", Value.vstr "Intel64 Family 6 Model 154")]),
   ("cpu", Value.vstr "psutil module not available"),
   ("memory", Value.vstr "psutil module not available"),
   ("disk", Value.vstr "psutil module not available"),
   ("network", Value.vstr "psutil module not available"),
   ("environment", Value.vdict [("PATH", Value.vstr "C:"),
                                ("USERNAME", Value.vstr "cbw")]),
   ("timestamp", Value.vstr "2025-02-17T12:00:00")]

/-- C1 witness: on the concrete run `noPsutilWorld`, `gather_info` succeeds
and the returned snapshot has the seven keys in order, none bound to null. -/
theorem gather_info_seven_keys_witness :
    noPsutilConfig.map Prod.fst = sevenKeys ∧
    ∀ kv ∈ noPsutilConfig, kv.2 ≠ Value.vnull :=
  gather_info_seven_keys noPsutilWorld noPsutilConfig rfl

/-- C2 counterexample: the OS category has no failure boundary of its own.
On a run where `platform.system()` raises and every other data source is
healthy, `gather_info` propagates the exception to its caller instead of
converting it to a string value, refuting the claim that every one of the
seven categories (including `os`) is wrapped in its own failure boundary. -/
theorem os_fault_escapes_gather_info :
    gather_info { noPsutilWorld with
                    platformSystem := .error "platform.system failed" }
      = .error "platform.system failed" := rfl

/-- C2 (amended): every category except `os` and `timestamp` has its own
failure boundary.  When the platform-identification calls and the clock
succeed, `gather_info` returns normally even if the cpu, memory, disk and
network collection bodies and the environment read all raise: each fault is
converted to a descriptive string value for its own category, and every
other category is still collected. -/
theorem gather_info_contains_section_faults (w : World) (pw : PsutilWorld)
    (s r v m p ts ec em ed en ee : String)
    (h1 : w.platformSystem = .ok s) (h2 : w.platformRelease = .ok r)
    (h3 : w.platformVersion = .ok v) (h4 : w.platformMachine = .ok m)
    (h5 : w.platformProcessor = .ok p) (h6 : w.nowIso = .ok ts)
    (hpw : w.psutil = some pw)
    (hc : cpu_collect pw = .error ec) (hme : memory_collect pw = .error em)
    (hd : disk_collect pw = .error ed) (hn : network_collect pw = .error en)
    (he : w.environ = .error ee) :
    gather_info w = .ok
      [("os", Value.vdict [("system", Value.vstr s),
                           ("release", Value.vstr r),
                           ("version", Value.vstr v),
                           ("machine", Value.vstr m),
                           ("processor", Value.vstr p)]),
       ("cpu", Value.vstr ("Error collecting CPU info: " ++ ec)),
       ("memory", Value.vstr ("Error collecting memory info: " ++ em)),
       ("disk", Value.vstr ("Error collecting disk info: " ++ ed)),
       ("network", Value.vstr ("Error collecting network info: " ++ en)),
       ("environment",
         Value.vstr ("Error collecting environment variables: " ++ ee)),
       ("timestamp", Value.vstr ts)] := by
  unfold gather_info cpu_section memory_section disk_section
    network_section environment_section
  simp only [h1, h2, h3, h4, h5, h6, hpw, hc, hme, hd, hn, he]

/-- A psutil module every call of which raises. -/
def faultyPsutil : PsutilWorld :=
  { cpuFreq := .error "cpu boom"
    cpuCountPhysical := .error "cpu boom"
    cpuCountLogical := .error "cpu boom"
    cpuPercent := .error "cpu boom"
    virtualMemory := .error "memory boom"
    diskPartitions := .error "disk boom"
    diskUsage := fun _ => .error "disk boom"
    netIfAddrs := .error "network boom" }

/-- A run where every containable data source faults but platform and clock
succeed. -/
def faultySectionsWorld : World :=
  { noPsutilWorld with
      psutil := some faultyPsutil
      environ := .error "environ boom" }

/-- C2 witness: on the concrete run `faultySectionsWorld`, with every
containable section faulting, `gather_info` still returns a full snapshot
whose degraded sections hold descriptive error strings. -/
theorem gather_info_contains_section_faults_witness :
    gather_info faultySectionsWorld = .ok
      [("os", Value.vdict [("system", Value.vstr "Windows"),
                           ("release", Value.vstr "11"),
                           ("version", Value.vstr "10.0.22631"),
                           ("machine", Value.vstr "AMD64"),
                           ("processor",
                             Value.vstr "Intel64 Family 6 Model 154")]),
       ("cpu", Value.vstr ("Error collecting CPU info: " ++ "cpu boom")),
       ("memory",
         Value.vstr ("Error collecting memory info: " ++ "memory boom")),
       ("disk", Value.vstr ("Error collecting disk info: " ++ "disk boom")),
       ("network",
         Value.vstr ("Error collecting network info: " ++ "network boom")),
       ("environment",
         Value.vstr ("Error collecting environment variables: "
           ++ "environ boom")),
       ("timestamp", Value.vstr "2025-02-17T12:00:00")] :=
  gather_info_contains_section_faults faultySectionsWorld faultyPsutil
    "Windows" "11" "10.0.22631" "AMD64" "Intel64 Family 6 Model 154"
    "2025-02-17T12:00:00" "cpu boom" "memory boom" "disk boom" "network boom"
    "environ boom" rfl rfl rfl rfl rfl rfl rfl rfl rfl rfl rfl rfl

/-- C3: when psutil is unavailable, the cpu, memory, disk and network
categories each equal the fixed marker string "psutil module not available"
and the snapshot is still produced (no metrics collection is consulted:
the result is fully determined by the non-psutil sources). -/
theorem gather_info_psutil_missing_markers (w : World)
    (s r v m p ts : String)
    (h1 : w.platformSystem = .ok s) (h2 : w.platformRelease = .ok r)
    (h3 : w.platformVersion = .ok v) (h4 : w.platformMachine = .ok m)
    (h5 : w.platformProcessor = .ok p) (h6 : w.nowIso = .ok ts)
    (hps : w.psutil = none) :
    gather_info w = .ok
      [("os", Value.vdict [("system", Value.vstr s),
                           ("release", Value.vstr r),
                           ("version", Value.vstr v),
                           ("machine", Value.vstr m),
                           ("processor", Value.vstr p)]),
       ("cpu", Value.vstr "psutil module not available"),
       ("memory", Value.vstr "psutil module not available"),
       ("disk", Value.vstr "psutil module not available"),
       ("network", Value.vstr "psutil module not available"),
       ("environment", environment_section w.environ),
       ("timestamp", Value.vstr ts)] := by
  unfold gather_info cpu_section memory_section disk_section network_section
  rw [h1, h2, h3, h4, h5, h6, hps]

/-- C3 witness: the marker strings on the concrete psutil-less run
`noPsutilWorld`. -/
theorem gather_info_psutil_missing_markers_witness :
    gather_info noPsutilWorld = .ok
      [("os", Value.vdict [("system", Value.vstr "Windows"),
                           ("release", Value.vstr "11"),
                           ("version", Value.vstr "10.0.22631"),
                           ("machine", Value.vstr "AMD64"),
                           ("processor",
                             Value.vstr "Intel64 Family 6 Model 154")]),
       ("cpu", Value.vstr "psutil module not available"),
       ("memory", Value.vstr "psutil module not available"),
       ("disk", Value.vstr "psutil module not available"),
       ("network", Value.vstr "psutil module not available"),
       ("environment", environment_section noPsutilWorld.environ),
       ("timestamp", Value.vstr "2025-02-17T12:00:00")] :=
  gather_info_psutil_missing_markers noPsutilWorld
    "Windows" "11" "10.0.22631" "AMD64" "Intel64 Family 6 Model 154"
    "2025-02-17T12:00:00" rfl rfl rfl rfl rfl rfl rfl

/-- C4: disk collection is partition-independent.  Whenever partition
enumeration succeeds, the `disk` value of the snapshot is a sequence with
one record per partition in enumeration order; a partition whose usage read
raises contributes only the reduced `{device, error}` record, and a
partition whose usage read succeeds contributes the full eight-field
record. -/
theorem disk_partition_fault_isolated (w : World) (pw : PsutilWorld)
    (s r v m p ts : String) (parts : List Partition)
    (i j : Nat) (efail : String) (u : DiskUsage)
    (h1 : w.platformSystem = .ok s) (h2 : w.platformRelease = .ok r)
    (h3 : w.platformVersion = .ok v) (h4 : w.platformMachine = .ok m)
    (h5 : w.platformProcessor = .ok p) (h6 : w.nowIso = .ok ts)
    (hpw : w.psutil = some pw)
    (hparts : pw.diskPartitions = .ok parts)
    (hi : i < parts.length) (hj : j < parts.length) (hne : j ≠ i)
    (hfail : pw.diskUsage (parts.get ⟨i, hi⟩).mountpoint = .error efail)
    (hu : pw.diskUsage (parts.get ⟨j, hj⟩).mountpoint = .ok u) :
    ∃ cfg l, gather_info w = .ok cfg ∧
      List.lookup "disk" cfg = some (Value.vlist l) ∧
      l.length = parts.length ∧
      l.get? i = some (Value.vdict
        [("device", Value.vstr (parts.get ⟨i, hi⟩).device),
         ("error", Value.vstr efail)]) ∧
      l.get? j = some (Value.vdict
        [("device", Value.vstr (parts.get ⟨j, hj⟩).device),
         ("mountpoint", Value.vstr (parts.get ⟨j, hj⟩).mountpoint),
         ("fstype", Value.vstr (parts.get ⟨j, hj⟩).fstype),
         ("opts", Value.vstr (parts.get ⟨j, hj⟩).opts),
         ("total_mb", Value.vrat (bytesToMb u.total)),
         ("used_mb", Value.vrat (bytesToMb u.used)),
         ("free_mb", Value.vrat (bytesToMb u.free)),
         ("percentage", Value.vrat u.percent)]) := by
  refine ⟨[("os", Value.vdict [("system", Value.vstr s),
                               ("release", Value.vstr r),
                               ("version", Value.vstr v),
                               ("machine", Value.vstr m),
                               ("processor", Value.vstr p)]),
           ("cpu", cpu_section w.psutil),
           ("memory", memory_section w.psutil),
           ("disk", Value.vlist (parts.map (partition_record pw.diskUsage))),
           ("network", network_section w.psutil),
           ("environment", environment_section w.environ),
           ("timestamp", Value.vstr ts)],
          parts.map (partition_record pw.diskUsage), ?_, ?_, ?_, ?_, ?_⟩
  · unfold gather_info disk_section disk_collect
    simp only [h1, h2, h3, h4, h5, h6, hpw, hparts]
  · rfl
  · simp
  · simp only [List.get?_map, List.get?_eq_get hi, Option.map_some']
    unfold partition_record
    rw [hfail]
  · simp only [List.get?_map, List.get?_eq_get hj, Option.map_some']
    unfold partition_record
    rw [hu]

/-- A partition whose usage read succeeds. -/
def okPartition : Partition :=
  { device := "C:", mountpoint := "C:/", fstype := "NTFS", opts := "rw" }

/-- A partition whose usage read raises. -/
def badPartition : Partition :=
  { device := "D:", mountpoint := "D:/", fstype := "NTFS", opts := "rw" }

/-- Usage of the healthy partition: 1 GiB total, half used. -/
def okUsage : DiskUsage :=
  { total := 1073741824, used := 536870912, free := 536870912, percent := 50 }

/-- A psutil module on a host with no reported CPU frequency, two disk
partitions of which the second cannot be read, and healthy memory. -/
def twoPartitionPsutil : PsutilWorld :=
  { cpuFreq := .ok none
    cpuCountPhysical := .ok (some 4)
    cpuCountLogical := .ok (some 8)
    cpuPercent := .ok 12
    virtualMemory := .ok { total := 1073741824, available := 536870912,
                           used := 536870912, percent := 50 }
    diskPartitions := .ok [okPartition, badPartition]
    diskUsage := fun m => if m = "C:/" then .ok okUsage
                          else .error "usage denied"
    netIfAddrs := .ok [] }

/-- A healthy run over `twoPartitionPsutil`. -/
def twoPartitionWorld : World :=
  { noPsutilWorld with psutil := some twoPartitionPsutil }

/-- C4 witness: on the concrete run with partitions C: (readable) and
D: (unreadable), the disk sequence keeps both entries in order, the D:
entry reduced to device and error, the C: entry with all eight fields. -/
theorem disk_partition_fault_isolated_witness :
    ∃ cfg l, gather_info twoPartitionWorld = .ok cfg ∧
      List.lookup "disk" cfg = some (Value.vlist l) ∧
      l.length = 2 ∧
      l.get? 1 = some (Value.vdict
        [("device", Value.vstr "D:"),
         ("error", Value.vstr "usage denied")]) ∧
      l.get? 0 = some (Value.vdict
        [("device", Value.vstr "C:"),
         ("mountpoint", Value.vstr "C:/"),
         ("fstype", Value.vstr "NTFS"),
         ("opts", Value.vstr "rw"),
         ("total_mb", Value.vrat (bytesToMb 1073741824)),
         ("used_mb", Value.vrat (bytesToMb 536870912)),
         ("free_mb", Value.vrat (bytesToMb 536870912)),
         ("percentage", Value.vrat 50)]) :=
  disk_partition_fault_isolated twoPartitionWorld twoPartitionPsutil
    "Windows" "11" "10.0.22631" "AMD64" "Intel64 Family 6 Model 154"
    "2025-02-17T12:00:00" [okPartition, badPartition] 1 0 "usage denied"
    okUsage rfl rfl rfl rfl rfl rfl rfl rfl (by decide) (by decide)
    (by decide) rfl rfl

theorem roundHalfEven_intCast (n : ℤ) : roundHalfEven (n : ℚ) = n := by
  unfold roundHalfEven
  simp

/-- C5: every memory size and every disk size in the snapshot is the source
byte count converted by `bytesToMb` (division by 1024² then 2-decimal
rounding), and a source of 1073741824 bytes converts to exactly 1024 MB. -/
theorem mb_sizes_rounded (pw : PsutilWorld) (vm : VirtualMemory)
    (part : Partition) (u : DiskUsage)
    (hvm : pw.virtualMemory = .ok vm)
    (hu : pw.diskUsage part.mountpoint = .ok u) :
    memory_collect pw = .ok
      [("total_mb", Value.vrat (bytesToMb vm.total)),
       ("available_mb", Value.vrat (bytesToMb vm.available)),
       ("used_mb", Value.vrat (bytesToMb vm.used)),
       ("percentage", Value.vrat vm.percent)] ∧
    partition_record pw.diskUsage part = Value.vdict
      [("device", Value.vstr part.device),
       ("mountpoint", Value.vstr part.mountpoint),
       ("fstype", Value.vstr part.fstype),
       ("opts", Value.vstr part.opts),
       ("total_mb", Value.vrat (bytesToMb u.total)),
       ("used_mb", Value.vrat (bytesToMb u.used)),
       ("free_mb", Value.vrat (bytesToMb u.free)),
       ("percentage", Value.vrat u.percent)] ∧
    bytesToMb 1073741824 = 1024 := by
  refine ⟨?_, ?_, ?_⟩
  · unfold memory_collect; rw [hvm]
  · unfold partition_record; rw [hu]
  · unfold bytesToMb pyRound2
    have h1 : ((1073741824 : Nat) : ℚ) / (1024 ^ 2) = 1024 := by norm_num
    have h2 : ((1024 : ℚ) * 100) = ((102400 : ℤ) : ℚ) := by norm_num
    rw [h1, h2, roundHalfEven_intCast]
    norm_num

/-- C5 witness: on `twoPartitionPsutil` with 1 GiB totals, the memory and
disk records carry the converted sizes and 1073741824 bytes give 1024 MB. -/
theorem mb_sizes_rounded_witness :
    memory_collect twoPartitionPsutil = .ok
      [("total_mb", Value.vrat (bytesToMb 1073741824)),
       ("available_mb", Value.vrat (bytesToMb 536870912)),
       ("used_mb", Value.vrat (bytesToMb 536870912)),
       ("percentage", Value.vrat 50)] ∧
    partition_record twoPartitionPsutil.diskUsage okPartition = Value.vdict
      [("device", Value.vstr "C:"),
       ("mountpoint", Value.vstr "C:/"),
       ("fstype", Value.vstr "NTFS"),
       ("opts", Value.vstr "rw"),
       ("total_mb", Value.vrat (bytesToMb 1073741824)),
       ("used_mb", Value.vrat (bytesToMb 536870912)),
       ("free_mb", Value.vrat (bytesToMb 536870912)),
       ("percentage", Value.vrat 50)] ∧
    bytesToMb 1073741824 = 1024 :=
  mb_sizes_rounded twoPartitionPsutil
    { total := 1073741824, available := 536870912,
      used := 536870912, percent := 50 }
    okPartition okUsage rfl rfl

/-- The cpu record gathered on `twoPartitionPsutil`, whose platform reports
no CPU frequency information. -/
def cpuNoFreqFields : List (String × Value) :=
  [("physical_cores", Value.vnat 4),
   ("total_cores", Value.vnat 8),
   ("max_frequency_mhz", Value.vnull),
   ("min_frequency_mhz", Value.vnull),
   ("current_frequency_mhz", Value.vnull),
   ("cpu_usage_percent", Value.vrat 12)]

/-- C6 counterexample: on a platform that reports no CPU frequency
(`psutil.cpu_freq()` returns `None`), the keys max_frequency_mhz,
min_frequency_mhz and current_frequency_mhz are NOT absent from the cpu
record: each is present and bound to Python `None`, refuting the claim that
they are absent rather than present-with-null. -/
theorem cpu_freq_keys_present_when_unreported :
    cpu_collect twoPartitionPsutil = .ok cpuNoFreqFields ∧
    List.lookup "max_frequency_mhz" cpuNoFreqFields = some Value.vnull ∧
    List.lookup "min_frequency_mhz" cpuNoFreqFields = some Value.vnull ∧
    List.lookup "current_frequency_mhz" cpuNoFreqFields = some Value.vnull :=
  ⟨rfl, rfl, rfl, rfl⟩

/-- C6 (amended): when the platform does not report CPU frequency
information, the keys max_frequency_mhz, min_frequency_mhz and
current_frequency_mhz are each present in the cpu record and bound to
Python `None` (null), not absent. -/
theorem cpu_freq_null_when_unreported (pw : PsutilWorld)
    (phys logical : Option Nat) (pct : ℚ)
    (hf : pw.cpuFreq = .ok none)
    (hp : pw.cpuCountPhysical = .ok phys)
    (hl : pw.cpuCountLogical = .ok logical)
    (hpc : pw.cpuPercent = .ok pct) :
    cpu_collect pw = .ok
      [("physical_cores", optNatVal phys),
       ("total_cores", optNatVal logical),
       ("max_frequency_mhz", Value.vnull),
       ("min_frequency_mhz", Value.vnull),
       ("current_frequency_mhz", Value.vnull),
       ("cpu_usage_percent", Value.vrat pct)] := by
  unfold cpu_collect
  simp only [hf, hp, hl, hpc]

/-- C6 witness: the frequency keys bound to null on the concrete module
`twoPartitionPsutil`. -/
theorem cpu_freq_null_when_unreported_witness :
    cpu_collect twoPartitionPsutil = .ok
      [("physical_cores", Value.vnat 4),
       ("total_cores", Value.vnat 8),
       ("max_frequency_mhz", Value.vnull),
       ("min_frequency_mhz", Value.vnull),
       ("current_frequency_mhz", Value.vnull),
       ("cpu_usage_percent", Value.vrat 12)] :=
  cpu_freq_null_when_unreported twoPartitionPsutil (some 4) (some 8) 12
    rfl rfl rfl rfl

theorem main_run_gather_ok (w : World) (ww : WriteWorld) (argv : List String)
    (cfg : List (String × Value)) (hg : gather_info w = .ok cfg) :
    main_run w ww argv =
      ⟨0, (write_config ww cfg (resolve_output_file argv)).1,
          (write_config ww cfg (resolve_output_file argv)).2⟩ := by
  unfold main_run
  rw [hg]

theorem write_config_written_of_open_ok (ww : WriteWorld)
    (cfg : List (String × Value)) (path : String)
    (hopen : ww.openFile path = .ok ()) :
    (write_config ww cfg path).2 = [path] := by
  unfold write_config
  rw [hopen]
  rcases hd : ww.yamlDump cfg path with e | u <;> simp [hd]

/-- C7: on any fault while opening the destination file or while
serializing/writing to it, `write_config` prints the descriptive failure
message and does not raise past the write boundary, and the process then
finishes with exit status zero having printed exactly that message. -/
theorem write_fault_message_exit_zero (w : World) (ww : WriteWorld)
    (argv : List String) (cfg : List (String × Value)) (e : String)
    (hg : gather_info w = .ok cfg)
    (hfault : ww.openFile (resolve_output_file argv) = .error e ∨
      (ww.openFile (resolve_output_file argv) = .ok () ∧
       ww.yamlDump cfg (resolve_output_file argv) = .error e)) :
    (main_run w ww argv).exitCode = 0 ∧
    (main_run w ww argv).printed =
      ["Failed to write configuration file: " ++ e] := by
  rw [main_run_gather_ok w ww argv cfg hg]
  unfold write_config
  rcases hfault with hopen | ⟨hopen, hdump⟩
  · rw [hopen]
    exact ⟨rfl, rfl⟩
  · rw [hopen, hdump]
    exact ⟨rfl, rfl⟩

/-- A writing environment in which opening the destination always raises. -/
def deniedWriteWorld : WriteWorld :=
  { openFile := fun _ => .error "Permission denied"
    yamlDump := fun _ _ => .ok () }

/-- C7 witness: on the concrete run `noPsutilWorld` with an unwritable
destination, the process prints the failure message and exits zero. -/
theorem write_fault_message_exit_zero_witness :
    (main_run noPsutilWorld deniedWriteWorld ["sysconfig_windows.py"]).exitCode
      = 0 ∧
    (main_run noPsutilWorld deniedWriteWorld ["sysconfig_windows.py"]).printed
      = ["Failed to write configuration file: " ++ "Permission denied"] :=
  write_fault_message_exit_zero noPsutilWorld deniedWriteWorld
    ["sysconfig_windows.py"] noPsutilConfig "Permission denied" rfl
    (Or.inl rfl)

/-- C8: when the PyYAML import fails at startup, the process prints the
install hint and terminates with exit status 1 — a non-zero status — and
this outcome is the same for every collection world and writing
environment: no collection or writing occurs before the exit. -/
theorem yaml_missing_fatal_startup (w : World) (ww : WriteWorld)
    (argv : List String) :
    program_run false w ww argv =
      ⟨1, ["PyYAML is not installed. Please install it using \x27pip install PyYAML\x27"], []⟩ ∧
    (program_run false w ww argv).exitCode ≠ 0 := by
  exact ⟨rfl, by simp [program_run]⟩

/-- C9: the output path is resolved from the command line: with no
positional argument the snapshot is written to system_config.yaml, and with
the single positional argument out.yaml it is written to out.yaml while
system_config.yaml is not written. -/
theorem output_path_from_argv (w : World) (ww : WriteWorld) (prog : String)
    (cfg : List (String × Value))
    (hg : gather_info w = .ok cfg)
    (hopen : ∀ path, ww.openFile path = .ok ()) :
    (main_run w ww [prog]).written = ["system_config.yaml"] ∧
    (main_run w ww [prog, "out.yaml"]).written = ["out.yaml"] ∧
    "system_config.yaml" ∉ (main_run w ww [prog, "out.yaml"]).written := by
  rw [main_run_gather_ok w ww [prog] cfg hg,
      main_run_gather_ok w ww [prog, "out.yaml"] cfg hg]
  refine ⟨?_, ?_, ?_⟩
  · exact write_config_written_of_open_ok ww cfg "system_config.yaml"
      (hopen "system_config.yaml")
  · exact write_config_written_of_open_ok ww cfg "out.yaml"
      (hopen "out.yaml")
  · rw [show (⟨0, (write_config ww cfg
          (resolve_output_file [prog, "out.yaml"])).1,
          (write_config ww cfg
          (resolve_output_file [prog, "out.yaml"])).2⟩ : RunResult).written
        = (write_config ww cfg "out.yaml").2 from rfl,
        write_config_written_of_open_ok ww cfg "out.yaml" (hopen "out.yaml")]
    decide

/-- A writing environment in which opening and serialization succeed. -/
def healthyWriteWorld : WriteWorld :=
  { openFile := fun _ => .ok ()
    yamlDump := fun _ _ => .ok () }

/-- C9 witness: the two path resolutions on the concrete run
`noPsutilWorld` with a healthy writing environment. -/
theorem output_path_from_argv_witness :
    (main_run noPsutilWorld healthyWriteWorld
        ["sysconfig_windows.py"]).written = ["system_config.yaml"] ∧
    (main_run noPsutilWorld healthyWriteWorld
        ["sysconfig_windows.py", "out.yaml"]).written = ["out.yaml"] ∧
    "system_config.yaml" ∉ (main_run noPsutilWorld healthyWriteWorld
        ["sysconfig_windows.py", "out.yaml"]).written :=
  output_path_from_argv noPsutilWorld healthyWriteWorld
    "sysconfig_windows.py" noPsutilConfig rfl (fun _ => rfl)

/-- C10: with two or more command-line arguments, only the first positional
argument (`argv[1]`) determines the output path; all further arguments are
silently ignored and the whole run is identical to the run given just the
first positional argument. -/
theorem extra_argv_ignored (w : World) (ww : WriteWorld)
    (prog a : String) (rest : List String) :
    resolve_output_file (prog :: a :: rest) = a ∧
    main_run w ww (prog :: a :: rest) = main_run w ww [prog, a] := by
  have h : resolve_output_file (prog :: a :: rest) = a := by
    unfold resolve_output_file
    simp
  refine ⟨h, ?_⟩
  unfold main_run
  rcases hg : gather_info w with e | cfg <;>
    simp [hg, h, resolve_output_file]
